import Mathlib

/-!
# MCP41HVX1 STM32 SPI driver: a shallow embedding

Verification development for the MCP41HVX1 digital-potentiometer driver
(src/MCP41HVX1.c, src/MCP41HVX1.h).

The development has two parts:

* an exact model of the 32-bit float arithmetic used by the
  resistance/code conversion functions.  Float values are represented as
  exact rational numbers (numerator/denominator pairs kept unreduced, so
  that every operation is a structural computation the kernel can
  evaluate), and every C float operation rounds its exact result to the
  nearest IEEE-754 binary32 value, ties to even.  All values arising in
  the driver are in the binary32 normal range, so overflow and subnormal
  handling are irrelevant and not modelled.

* a state/trace model of the SPI transaction code.  The STM32 registers
  the driver touches are modelled by their bit-fields (CR1 bits CPHA,
  CPOL, SPE; the CR2 RXNE-threshold bit), the chip-select line and the
  HAL lock as booleans, and the two file-scope static variables
  old_spi_polarity / old_spi_phase as an explicit record of process-wide
  state threaded through in program order.  Each driver function takes
  the bytes the chip answers on the bus as explicit arguments (full
  duplex SPI: one reply byte per transmitted byte) and returns, besides
  its C return value, the final state and the ordered trace of bus
  events it performs.  Busy-polls on the status register are modelled as
  terminating waits (the source polls with no timeout).
-/

/-- Exact rational numbers as numerator/denominator pairs.  The pairs are
kept unreduced (no gcd normalisation) so that every operation below is a
plain structural computation on Int and Nat, which the kernel can
evaluate.  Every value built by the operations below has a positive
denominator.  A term of this type stands for the exact real value of a C
float object. -/
structure Q where
  num : ℤ
  den : ℕ
  deriving DecidableEq

/-- The rational n/1. -/
def Q.ofInt (n : ℤ) : Q := ⟨n, 1⟩

/-- Exact product. -/
def Q.mul (a b : Q) : Q := ⟨a.num * b.num, a.den * b.den⟩

/-- Exact sum. -/
def Q.add (a b : Q) : Q := ⟨a.num * (b.den : ℤ) + b.num * (a.den : ℤ), a.den * b.den⟩

/-- Exact negation. -/
def Q.neg (a : Q) : Q := ⟨-a.num, a.den⟩

/-- Exact quotient (the divisor is nonzero wherever the driver divides);
the sign is moved into the numerator so the denominator stays positive. -/
def Q.div (a b : Q) : Q :=
  if b.num < 0 then ⟨-(a.num * (b.den : ℤ)), a.den * (-b.num).toNat⟩
  else ⟨a.num * (b.den : ℤ), a.den * b.num.toNat⟩

/-- Order on the exact values (cross multiplication; denominators are
positive). -/
def Q.le (a b : Q) : Prop := a.num * (b.den : ℤ) ≤ b.num * (a.den : ℤ)

instance (a b : Q) : Decidable (Q.le a b) :=
  inferInstanceAs (Decidable (a.num * (b.den : ℤ) ≤ b.num * (a.den : ℤ)))

/-- Strict order on the exact values. -/
def Q.lt (a b : Q) : Prop := a.num * (b.den : ℤ) < b.num * (a.den : ℤ)

instance (a b : Q) : Decidable (Q.lt a b) :=
  inferInstanceAs (Decidable (a.num * (b.den : ℤ) < b.num * (a.den : ℤ)))

/-- Floor of the exact value (denominators are positive, so Int floor
division is the mathematical floor). -/
def Q.floor (a : Q) : ℤ := Int.fdiv a.num (a.den : ℤ)

/-- Floor of base-2 logarithm of a positive Nat, by structural recursion
on a fuel argument so the kernel can evaluate it; call with fuel = n. -/
def log2f : ℕ → ℕ → ℕ
  | 0, _ => 0
  | fuel+1, n => if n ≤ 1 then 0 else log2f fuel (n / 2) + 1

/-- The dyadic rational 2^L for an integer L. -/
def pow2 (L : ℤ) : Q := if L < 0 then ⟨1, 2 ^ (-L).toNat⟩ else ⟨2 ^ L.toNat, 1⟩

/-- For a positive rational a, the exponent e with 2^e ≤ a < 2^(e+1).
The bit-length difference of numerator and denominator brackets e to two
candidates; one comparison settles it. -/
def qlog2 (a : Q) : ℤ :=
  let L : ℤ := (log2f a.num.toNat a.num.toNat : ℤ) - (log2f a.den a.den : ℤ)
  if Q.le (pow2 L) a then L else L - 1

/-- Round an exact rational to the nearest integer, ties to even (the
IEEE-754 default rounding used by the FPU for every float operation). -/
def rne (q : Q) : ℤ :=
  let f := q.floor
  let t : ℤ := 2 * (q.num - f * (q.den : ℤ))
  if t < (q.den : ℤ) then f
  else if (q.den : ℤ) < t then f + 1
  else if f % 2 = 0 then f else f + 1

/-- Round an exact rational to the nearest IEEE-754 binary32 value
(normal range; ties to even): keep a 24-bit significand. -/
def fl32 (q : Q) : Q :=
  if q.num = 0 then ⟨0, 1⟩
  else
    let a : Q := ⟨(q.num.natAbs : ℤ), q.den⟩
    let e : ℤ := qlog2 a
    let m : ℤ := rne (Q.mul a (pow2 (23 - e)))
    let mag : Q := Q.mul ⟨m, 1⟩ (pow2 (e - 23))
    if q.num < 0 then Q.neg mag else mag

/-- C float multiplication: exact product, correctly rounded. -/
def fmul (a b : Q) : Q := fl32 (Q.mul a b)

/-- C float division: exact quotient, correctly rounded. -/
def fdiv (a b : Q) : Q := fl32 (Q.div a b)

/-- C float addition: exact sum, correctly rounded. -/
def fadd (a b : Q) : Q := fl32 (Q.add a b)

/-- C roundf: round to nearest integer, halfway cases away from zero;
the result is returned as a float. -/
def roundf (q : Q) : Q :=
  fl32 (Q.ofInt (if q.num < 0 then -(Q.floor (Q.add (Q.neg q) ⟨1, 2⟩))
                 else Q.floor (Q.add q ⟨1, 2⟩)))

/-- C conversion of a float value to uint8_t as compiled for the target:
the value is truncated toward zero and the low 8 bits are kept (negative
values convert to 0). -/
def u8_of_f (q : Q) : ℕ := q.floor.toNat % 256

/-! Calibration constants from src/MCP41HVX1.h.  MCP_STEP_RESISTANCE is
the float literal 196.08f, that is 196.08 rounded to binary32. -/

/-- MCP_STEP_RESISTANCE 196.08f. -/
def MCP_STEP_RESISTANCE : Q := fl32 (Q.div (Q.ofInt 19608) (Q.ofInt 100))

/-- MCP_FSV 255, the full-scale wiper code. -/
def MCP_FSV : ℤ := 255

/-- MCP_R_FS 0, the full-scale resistance. -/
def MCP_R_FS : ℤ := 0

/-- MCP_R_MAX 50000 (defined in the header; the .c file never reads it). -/
def MCP_R_MAX : ℤ := 50000

/-- INCR_WIPER = 0x04 from the MCP41HVX1_Wiper_Command enum. -/
def INCR_WIPER : ℕ := 0x04

/-- DECR_WIPER = 0x08 from the MCP41HVX1_Wiper_Command enum. -/
def DECR_WIPER : ℕ := 0x08

/-- float MCP41HVX1_To_Resistance(uint8_t code):
MCP_R_FS + (float)(MCP_FSV - code) * MCP_STEP_RESISTANCE.
The argument is a uint8_t, so the int subtraction MCP_FSV - code lies in
0..255 and its conversion to float is exact; the int literal MCP_R_FS = 0
converts exactly as well. -/
def MCP41HVX1_To_Resistance (code : ℕ) : Q :=
  fadd (Q.ofInt MCP_R_FS)
    (fmul (Q.ofInt (MCP_FSV - ((code % 256 : ℕ) : ℤ))) MCP_STEP_RESISTANCE)

/-- uint8_t MCP41HVX1_To_Code(float resistance):
MCP_FSV - (uint8_t)roundf((float)resistance / MCP_STEP_RESISTANCE).
The int difference lies in 0..255, so the uint8_t return conversion
(modelled by toNat % 256) does not change it. -/
def MCP41HVX1_To_Code (resistance : Q) : ℕ :=
  (MCP_FSV - (u8_of_f (roundf (fdiv resistance MCP_STEP_RESISTANCE)) : ℤ)).toNat % 256

/-! ## The SPI state and trace model -/

/-- The two file-scope static variables of src/MCP41HVX1.c:
static uint8_t old_spi_polarity; static uint8_t old_spi_phase.
A single process-wide slot pair shared by every transaction. -/
structure Slots where
  old_spi_polarity : ℕ
  old_spi_phase : ℕ
  deriving DecidableEq

/-- The SPI CR1 control register, by the bit-fields the driver touches:
bit 0 CPHA (mask 0x0001), bit 1 CPOL (mask 0x0002), bit 6 SPE (mask
0x0040). -/
structure CR1 where
  cpha : Bool
  cpol : Bool
  spe : Bool
  deriving DecidableEq

/-- HAL_StatusTypeDef of the STM32 HAL. -/
inductive HAL_StatusTypeDef where
  | HAL_OK
  | HAL_ERROR
  | HAL_BUSY
  | HAL_TIMEOUT
  deriving DecidableEq

export HAL_StatusTypeDef (HAL_OK HAL_ERROR HAL_BUSY HAL_TIMEOUT)

/-- State a driver operation acts on: the process-wide static slots, the
bit-fields of the SPI peripheral registers, the chip-select line of the
device (true = asserted, the active-low line driven low by __MCP_SELECT)
and the HAL lock of the SPI handle. -/
structure DevState where
  globals : Slots
  cr1 : CR1
  rxne_quarter : Bool
  cs_active : Bool
  locked : Bool
  deriving DecidableEq

/-- Observable bus events of a transaction, in program order:
lock/unlock of the SPI handle, chip-select edges, SPI enable, one event
per transmitted and per received data byte, and the steps of the disable
sequence (the two status-register busy-polls, clearing SPE, and one
event per residual receive-FIFO byte read and discarded). -/
inductive Ev where
  | lock
  | unlock
  | csAssert
  | csDeassert
  | spiEnable
  | spiDisable
  | tx (b : ℕ)
  | rx (b : ℕ)
  | waitTxFifoEmpty
  | waitNotBusy
  | drain (b : ℕ)
  deriving DecidableEq

/-- static void _spi_change_settings(MCP41HVX1 *mcp):
store (CR1 & 0x0002) >> 1 and CR1 & 0x0001 into the static slots, then
clear the polarity and phase bits of CR1. -/
def _spi_change_settings (_g : Slots) (cr1 : CR1) : Slots × CR1 :=
  ({ old_spi_polarity := if cr1.cpol then 1 else 0,
     old_spi_phase := if cr1.cpha then 1 else 0 },
   { cr1 with cpol := false, cpha := false })

/-- static void _spi_revert_settings(MCP41HVX1 *mcp):
set the polarity bit if the static old_spi_polarity slot is nonzero, set
the phase bit if the static old_spi_phase slot is nonzero. -/
def _spi_revert_settings (g : Slots) (cr1 : CR1) : CR1 :=
  let cr1a := if g.old_spi_polarity ≠ 0 then { cr1 with cpol := true } else cr1
  if g.old_spi_phase ≠ 0 then { cr1a with cpha := true } else cr1a

/-- Step 4 of _spi_disable: read and discard bytes from DR until the
receive-FIFO level FRLVL reports empty; returns the emptied FIFO and one
drain event per byte read. -/
def _spi_flush_rx : List ℕ → List ℕ × List Ev
  | [] => ([], [])
  | b :: rest =>
    let r := _spi_flush_rx rest
    (r.1, Ev.drain b :: r.2)

/-- static HAL_StatusTypeDef _spi_disable(SPI_HandleTypeDef *spiHandle):
(1) busy-poll until the transmit FIFO level FTLVL is 0b00, (2) busy-poll
until the BSY flag is 0, (3) clear the SPE bit of CR1, (4) read DR until
the receive FIFO is empty; returns HAL_OK.  The two polls terminate when
the peripheral drains (the source polls with no timeout). -/
def _spi_disable (cr1 : CR1) (rxFifo : List ℕ) :
    HAL_StatusTypeDef × CR1 × List ℕ × List Ev :=
  let r := _spi_flush_rx rxFifo
  (HAL_OK, { cr1 with spe := false }, r.1,
   Ev.waitTxFifoEmpty :: Ev.waitNotBusy :: Ev.spiDisable :: r.2)

/-- static void _spi_16bit_write(MCP41HVX1 *mcp, uint16_t data):
wait for TXE and send the high byte, wait for TXE and send the low byte. -/
def _spi_16bit_write (data : ℕ) : List Ev :=
  [Ev.tx ((data &&& 0xFF00) >>> 8), Ev.tx (data &&& 0x00FF)]

/-- static void _spi_8bit_read(MCP41HVX1 *mcp, uint8_t *buffer):
wait for RXNE and read one byte from DR.  The byte the chip answers is
passed in as reply; the DR access yields its low 8 bits. -/
def _spi_8bit_read (reply : ℕ) : ℕ × List Ev :=
  let b := reply % 256
  (b, [Ev.rx b])

/-- static void _spi_16bit_read(MCP41HVX1 *mcp, uint8_t *buffer):
two successive waits on RXNE, each followed by one DR byte read. -/
def _spi_16bit_read (reply0 reply1 : ℕ) : (ℕ × ℕ) × List Ev :=
  let b0 := reply0 % 256
  let b1 := reply1 % 256
  ((b0, b1), [Ev.rx b0, Ev.rx b1])

/-- HAL_StatusTypeDef MCP41HVX1_Move_Wiper(MCP41HVX1 *mcp,
MCP41HVX1_Wiper_Command cmd): lock, change settings, select, set the
RXNE threshold, enable SPI, transmit the command byte, read one reply
byte, disable, unselect, revert settings, unlock; HAL_OK when
cmderr = (~rx & 0x02) is zero, HAL_ERROR otherwise.  The lock is the
acquisition of exclusive bus ownership (it blocks until the handle is
free). -/
def MCP41HVX1_Move_Wiper (s : DevState) (cmd : ℕ) (reply : ℕ) :
    HAL_StatusTypeDef × DevState × List Ev :=
  let s1 := { s with locked := true }
  let gc := _spi_change_settings s1.globals s1.cr1
  let s2 := { s1 with globals := gc.1, cr1 := gc.2 }
  let s3 := { s2 with cs_active := true }
  let s4 := { s3 with rxne_quarter := true }
  let s5 := { s4 with cr1 := { s4.cr1 with spe := true } }
  let rd := _spi_8bit_read reply
  let rx := rd.1
  let dis := _spi_disable s5.cr1 []
  let s6 := { s5 with cr1 := dis.2.1 }
  let s7 := { s6 with cs_active := false }
  let s8 := { s7 with cr1 := _spi_revert_settings s7.globals s7.cr1 }
  let s9 := { s8 with locked := false }
  let cmderr := (rx ^^^ 0xFF) &&& 0x02
  (if cmderr = 0 then HAL_OK else HAL_ERROR, s9,
   [Ev.lock, Ev.csAssert, Ev.spiEnable, Ev.tx (cmd % 256)] ++ rd.2
     ++ dis.2.2.2 ++ [Ev.csDeassert, Ev.unlock])

/-- HAL_StatusTypeDef MCP41HVX1_Set_Resistance_Code(MCP41HVX1 *mcp,
uint8_t code): same envelope; transmits the 16-bit frame 0x0000 | code
(write-register command for wiper register 0x00, then the code byte),
reads the 16-bit response, HAL_OK when cmderr = (~rx[0] & 0x02) is
zero. -/
def MCP41HVX1_Set_Resistance_Code (s : DevState) (code : ℕ) (reply0 reply1 : ℕ) :
    HAL_StatusTypeDef × DevState × List Ev :=
  let s1 := { s with locked := true }
  let gc := _spi_change_settings s1.globals s1.cr1
  let s2 := { s1 with globals := gc.1, cr1 := gc.2 }
  let s3 := { s2 with cs_active := true }
  let s4 := { s3 with rxne_quarter := true }
  let s5 := { s4 with cr1 := { s4.cr1 with spe := true } }
  let wr := _spi_16bit_write (0x0000 ||| (code % 256))
  let rd := _spi_16bit_read reply0 reply1
  let rx0 := rd.1.1
  let dis := _spi_disable s5.cr1 []
  let s6 := { s5 with cr1 := dis.2.1 }
  let s7 := { s6 with cs_active := false }
  let s8 := { s7 with cr1 := _spi_revert_settings s7.globals s7.cr1 }
  let s9 := { s8 with locked := false }
  let cmderr := (rx0 ^^^ 0xFF) &&& 0x02
  (if cmderr = 0 then HAL_OK else HAL_ERROR, s9,
   [Ev.lock, Ev.csAssert, Ev.spiEnable] ++ wr ++ rd.2
     ++ dis.2.2.2 ++ [Ev.csDeassert, Ev.unlock])

/-- HAL_StatusTypeDef MCP41HVX1_Set_Resistance(MCP41HVX1 *mcp,
float resistance): if (resistance <= 0) return HAL_ERROR immediately
(no bus access); otherwise convert to a code and delegate to
MCP41HVX1_Set_Resistance_Code. -/
def MCP41HVX1_Set_Resistance (s : DevState) (resistance : Q) (reply0 reply1 : ℕ) :
    HAL_StatusTypeDef × DevState × List Ev :=
  if Q.le resistance (Q.ofInt 0) then (HAL_ERROR, s, [])
  else MCP41HVX1_Set_Resistance_Code s (MCP41HVX1_To_Code resistance) reply0 reply1

/-- HAL_StatusTypeDef MCP41HVX1_Get_Resistance(MCP41HVX1 *mcp,
float *resistance): same envelope; transmit the read command 0x0C and
read the first reply byte; only when !(~rx & 0x02) (no command error)
transmit a dummy byte, read the code byte, and store the converted
resistance through the out pointer (modelled as the Option component:
none means the pointee was never written); status stays HAL_ERROR on
the error path.  Both paths then disable, unselect, revert and unlock. -/
def MCP41HVX1_Get_Resistance (s : DevState) (reply0 reply1 : ℕ) :
    HAL_StatusTypeDef × DevState × Option Q × List Ev :=
  let s1 := { s with locked := true }
  let gc := _spi_change_settings s1.globals s1.cr1
  let s2 := { s1 with globals := gc.1, cr1 := gc.2 }
  let s3 := { s2 with cs_active := true }
  let s4 := { s3 with rxne_quarter := true }
  let s5 := { s4 with cr1 := { s4.cr1 with spe := true } }
  let rd := _spi_8bit_read reply0
  let rx := rd.1
  let inner :=
    if (rx ^^^ 0xFF) &&& 0x02 = 0 then
      let rd2 := _spi_8bit_read reply1
      (HAL_OK, some (MCP41HVX1_To_Resistance rd2.1), Ev.tx 0x00 :: rd2.2)
    else (HAL_ERROR, (none : Option Q), ([] : List Ev))
  let dis := _spi_disable s5.cr1 []
  let s6 := { s5 with cr1 := dis.2.1 }
  let s7 := { s6 with cs_active := false }
  let s8 := { s7 with cr1 := _spi_revert_settings s7.globals s7.cr1 }
  let s9 := { s8 with locked := false }
  (inner.1, s9, inner.2.1,
   [Ev.lock, Ev.csAssert, Ev.spiEnable, Ev.tx 0x0C] ++ rd.2 ++ inner.2.2
     ++ dis.2.2.2 ++ [Ev.csDeassert, Ev.unlock])

/-- HAL_StatusTypeDef MCP41HVX1_Startup(MCP41HVX1 *mcp): same envelope;
writes 0xFF to the TCON register 0x04 (frame 0x04FF), reads the 16-bit
response, HAL_OK when cmderr = (~rx[0] & 0x02) is zero. -/
def MCP41HVX1_Startup (s : DevState) (reply0 reply1 : ℕ) :
    HAL_StatusTypeDef × DevState × List Ev :=
  let s1 := { s with locked := true }
  let gc := _spi_change_settings s1.globals s1.cr1
  let s2 := { s1 with globals := gc.1, cr1 := gc.2 }
  let s3 := { s2 with cs_active := true }
  let s4 := { s3 with rxne_quarter := true }
  let s5 := { s4 with cr1 := { s4.cr1 with spe := true } }
  let wr := _spi_16bit_write 0x04FF
  let rd := _spi_16bit_read reply0 reply1
  let rx0 := rd.1.1
  let dis := _spi_disable s5.cr1 []
  let s6 := { s5 with cr1 := dis.2.1 }
  let s7 := { s6 with cs_active := false }
  let s8 := { s7 with cr1 := _spi_revert_settings s7.globals s7.cr1 }
  let s9 := { s8 with locked := false }
  let cmderr := (rx0 ^^^ 0xFF) &&& 0x02
  (if cmderr = 0 then HAL_OK else HAL_ERROR, s9,
   [Ev.lock, Ev.csAssert, Ev.spiEnable] ++ wr ++ rd.2
     ++ dis.2.2.2 ++ [Ev.csDeassert, Ev.unlock])

/-- HAL_StatusTypeDef MCP41HVX1_Shutdown(MCP41HVX1 *mcp): same envelope;
writes 0xF9 to the TCON register 0x04 (frame 0x04F9), reads the 16-bit
response, HAL_OK when cmderr = (~rx[0] & 0x02) is zero. -/
def MCP41HVX1_Shutdown (s : DevState) (reply0 reply1 : ℕ) :
    HAL_StatusTypeDef × DevState × List Ev :=
  let s1 := { s with locked := true }
  let gc := _spi_change_settings s1.globals s1.cr1
  let s2 := { s1 with globals := gc.1, cr1 := gc.2 }
  let s3 := { s2 with cs_active := true }
  let s4 := { s3 with rxne_quarter := true }
  let s5 := { s4 with cr1 := { s4.cr1 with spe := true } }
  let wr := _spi_16bit_write 0x04F9
  let rd := _spi_16bit_read reply0 reply1
  let rx0 := rd.1.1
  let dis := _spi_disable s5.cr1 []
  let s6 := { s5 with cr1 := dis.2.1 }
  let s7 := { s6 with cs_active := false }
  let s8 := { s7 with cr1 := _spi_revert_settings s7.globals s7.cr1 }
  let s9 := { s8 with locked := false }
  let cmderr := (rx0 ^^^ 0xFF) &&& 0x02
  (if cmderr = 0 then HAL_OK else HAL_ERROR, s9,
   [Ev.lock, Ev.csAssert, Ev.spiEnable] ++ wr ++ rd.2
     ++ dis.2.2.2 ++ [Ev.csDeassert, Ev.unlock])

/-- Two transactions on two different SPI handles (register files cr1A
and cr1B), interleaved: A saves and forces its mode, then B runs its
complete save/force/restore, then A restores.  The static slot pair is
process-wide, so it is threaded through all four calls in program
order.  Returns the final CR1 of each handle. -/
def interleaved_transactions (g : Slots) (cr1A cr1B : CR1) : CR1 × CR1 :=
  let a := _spi_change_settings g cr1A
  let b := _spi_change_settings a.1 cr1B
  let finB := _spi_revert_settings b.1 b.2
  let finA := _spi_revert_settings b.1 a.2
  (finA, finB)

/-- The data bytes transmitted in a trace, in order. -/
def txBytes (t : List Ev) : List ℕ :=
  t.filterMap (fun e => match e with | Ev.tx b => some b | _ => none)

/-- The number of data bytes received in a trace. -/
def rxCount (t : List Ev) : ℕ :=
  (t.filterMap (fun e => match e with | Ev.rx b => some b | _ => none)).length

/-- A concrete device state used by the concrete-input theorems: slots
zero, CR1 clear, RXNE threshold unset, chip-select idle, lock free. -/
def sampleDev : DevState :=
  ⟨⟨0, 0⟩, ⟨false, false, false⟩, false, false, false⟩

/-- Bool check of the code/resistance round trip for all codes below n,
by structural recursion so the kernel can evaluate it. -/
def roundtripOK : ℕ → Bool
  | 0 => true
  | c+1 => (MCP41HVX1_To_Code (MCP41HVX1_To_Resistance c) == c) && roundtripOK c

/-- The release condition of the transaction envelope: the event trace
ends with the disable sequence (transmit-FIFO poll, busy poll, SPE
clear, residual drain), chip-select deassertion and unlock, and the
final state holds no lock, an idle chip-select, SPE cleared and the
pre-transaction polarity/phase bits. -/
def releasedAfter (s0 fin : DevState) (t : List Ev) : Prop :=
  (∃ p, t = p ++ [Ev.waitTxFifoEmpty, Ev.waitNotBusy, Ev.spiDisable,
                  Ev.csDeassert, Ev.unlock])
  ∧ fin.locked = false ∧ fin.cs_active = false ∧ fin.cr1.spe = false
  ∧ fin.cr1.cpol = s0.cr1.cpol ∧ fin.cr1.cpha = s0.cr1.cpha

/-! ## Supporting lemmas -/

theorem roundtripOK_sound :
    ∀ n, roundtripOK n = true →
      ∀ c, c < n → MCP41HVX1_To_Code (MCP41HVX1_To_Resistance c) = c := by
  intro n
  induction n with
  | zero => intro _ c hc; omega
  | succ k ih =>
    intro h c hc
    rw [roundtripOK, Bool.and_eq_true] at h
    rcases Nat.lt_succ_iff_lt_or_eq.mp hc with h2 | h2
    · exact ih h.2 c h2
    · subst h2; exact eq_of_beq h.1

set_option maxRecDepth 40000 in
theorem roundtripOK_256 : roundtripOK 256 = true := by decide

set_option maxRecDepth 40000 in
/-- On an 8-bit reply byte, the source test cmderr = (~rx & 0x02) is
zero exactly when bit 1 of the byte is set (the sense the code gives
the error-indicator bit: set means no error). -/
theorem cmderr_clear_iff (b : ℕ) (h : b < 256) :
    ((b ^^^ 0xFF) &&& 0x02 = 0) ↔ b.testBit 1 = true := by
  revert b; decide

/-! ## Claims -/

/-- C1 (counterexample): with resistance 60000 > MCP_R_MAX = 50000,
MCP41HVX1_Set_Resistance does not fail fast: given a no-error chip
reply it returns HAL_OK, and its trace acquires the lock, asserts
chip-select and transmits bytes (the wrapped code 205 among them), so
values above R_MAX are not rejected and do reach the bus. -/
theorem C1_counterexample_above_rmax_not_rejected :
    Q.lt (Q.ofInt MCP_R_MAX) (Q.ofInt 60000)
    ∧ (MCP41HVX1_Set_Resistance sampleDev (Q.ofInt 60000) 2 0).1 = HAL_OK
    ∧ Ev.lock ∈ (MCP41HVX1_Set_Resistance sampleDev (Q.ofInt 60000) 2 0).2.2
    ∧ Ev.csAssert ∈ (MCP41HVX1_Set_Resistance sampleDev (Q.ofInt 60000) 2 0).2.2
    ∧ Ev.tx 205 ∈ (MCP41HVX1_Set_Resistance sampleDev (Q.ofInt 60000) 2 0).2.2 := by
  decide

/-- C1 (amended): MCP41HVX1_Set_Resistance rejects exactly the
non-positive side: for every resistance value r ≤ 0 it returns
HAL_ERROR, leaves the state untouched and performs no bus activity
whatsoever (empty trace: no lock acquisition, no chip-select assertion,
no byte transmitted); values above MCP_R_MAX are not rejected. -/
theorem C1_set_resistance_rejects_nonpositive (s : DevState) (q : Q) (r0 r1 : ℕ)
    (h : Q.le q (Q.ofInt 0)) :
    MCP41HVX1_Set_Resistance s q r0 r1 = (HAL_ERROR, s, []) := by
  simp [MCP41HVX1_Set_Resistance, h]

theorem C1_set_resistance_rejects_nonpositive_witness :
    Q.le ⟨-5, 1⟩ (Q.ofInt 0)
    ∧ MCP41HVX1_Set_Resistance sampleDev ⟨-5, 1⟩ 0 0 = (HAL_ERROR, sampleDev, []) :=
  ⟨by decide, C1_set_resistance_rejects_nonpositive sampleDev ⟨-5, 1⟩ 0 0 (by decide)⟩

/-- C2: for every wiper code c in 0..255, converting the code to a
resistance and back yields the same code, under the roundf rounding
rule and the calibration constants (step 196.08f, full-scale code 255,
full-scale resistance 0), with every float operation rounded to
binary32. -/
theorem C2_code_resistance_roundtrip (c : ℕ) (h : c < 256) :
    MCP41HVX1_To_Code (MCP41HVX1_To_Resistance c) = c :=
  roundtripOK_sound 256 roundtripOK_256 c h

theorem C2_code_resistance_roundtrip_witness :
    7 < 256 ∧ MCP41HVX1_To_Code (MCP41HVX1_To_Resistance 7) = 7 :=
  ⟨by decide, C2_code_resistance_roundtrip 7 (by decide)⟩

/-- C3 (counterexample): the saved polarity/phase live in the single
process-wide static slot pair, not in transaction-scoped storage.
Interleaving two transactions on two SPI handles (A starts with
polarity=1 and phase=1, B with 0/0): B's save overwrites the slot pair
that held A's saved values, and A's restore then applies B's values, so
A's peripheral is left with polarity=0 and phase=0 instead of its
original 1/1. -/
theorem C3_counterexample_shared_slot :
    (interleaved_transactions ⟨0, 0⟩ ⟨true, true, false⟩ ⟨false, false, false⟩).1.cpol = false
    ∧ (interleaved_transactions ⟨0, 0⟩ ⟨true, true, false⟩ ⟨false, false, false⟩).1.cpha = false
    ∧ (⟨true, true, false⟩ : CR1).cpol = true
    ∧ (⟨true, true, false⟩ : CR1).cpha = true
    ∧ (_spi_change_settings (_spi_change_settings ⟨0, 0⟩ ⟨true, true, false⟩).1
        ⟨false, false, false⟩).1 = ⟨0, 0⟩
    ∧ (_spi_change_settings ⟨0, 0⟩ ⟨true, true, false⟩).1 = ⟨1, 1⟩ := by
  decide

/-- C3 (amended): the saved peripheral configuration is stored in the
single process-wide static slot pair old_spi_polarity/old_spi_phase
shared by all transactions; whenever a transaction B on another handle
runs between a transaction A's save and restore, B's save overwrites
the slot pair, and A's restore applies B's saved values: with A
starting at polarity=1/phase=1 and B at 0/0, A's register keeps the
forced 0/0 mode. -/
theorem C3_saved_config_single_process_slot (g : Slots) (a b : CR1)
    (ha1 : a.cpol = true) (ha2 : a.cpha = true)
    (hb1 : b.cpol = false) (hb2 : b.cpha = false) :
    (_spi_change_settings (_spi_change_settings g a).1 b).1 = ⟨0, 0⟩
    ∧ (interleaved_transactions g a b).1.cpol = false
    ∧ (interleaved_transactions g a b).1.cpha = false := by
  simp [interleaved_transactions, _spi_change_settings, _spi_revert_settings,
    ha1, ha2, hb1, hb2]

theorem C3_saved_config_single_process_slot_witness :
    ((⟨true, true, false⟩ : CR1).cpol = true ∧ (⟨true, true, false⟩ : CR1).cpha = true
      ∧ (⟨false, false, false⟩ : CR1).cpol = false ∧ (⟨false, false, false⟩ : CR1).cpha = false)
    ∧ ((_spi_change_settings (_spi_change_settings ⟨0, 0⟩ ⟨true, true, false⟩).1
          ⟨false, false, false⟩).1 = ⟨0, 0⟩
      ∧ (interleaved_transactions ⟨0, 0⟩ ⟨true, true, false⟩ ⟨false, false, false⟩).1.cpol = false
      ∧ (interleaved_transactions ⟨0, 0⟩ ⟨true, true, false⟩ ⟨false, false, false⟩).1.cpha = false) :=
  ⟨⟨rfl, rfl, rfl, rfl⟩,
   C3_saved_config_single_process_slot ⟨0, 0⟩ ⟨true, true, false⟩ ⟨false, false, false⟩
     rfl rfl rfl rfl⟩

/-- C4: MCP41HVX1_Move_Wiper with the increment command transmits
exactly the single command byte 0x04, reads exactly one reply byte, no
retry (the complete trace is one transmit event and one receive event
inside the envelope), and returns HAL_OK exactly when the
error-indicator bit (bit 1, set meaning no error) of the received byte
signals no error, HAL_ERROR otherwise. -/
theorem C4_move_wiper_increment_protocol (s : DevState) (reply : ℕ) :
    (MCP41HVX1_Move_Wiper s INCR_WIPER reply).2.2 =
      [Ev.lock, Ev.csAssert, Ev.spiEnable, Ev.tx 0x04, Ev.rx (reply % 256),
       Ev.waitTxFifoEmpty, Ev.waitNotBusy, Ev.spiDisable, Ev.csDeassert, Ev.unlock]
    ∧ ((MCP41HVX1_Move_Wiper s INCR_WIPER reply).1 = HAL_OK
        ↔ (reply % 256).testBit 1 = true) := by
  constructor
  · simp [MCP41HVX1_Move_Wiper, _spi_8bit_read, _spi_disable, _spi_flush_rx, INCR_WIPER]
  · have h := cmderr_clear_iff (reply % 256) (Nat.mod_lt reply (by decide))
    rw [← h]
    simp only [MCP41HVX1_Move_Wiper, _spi_8bit_read, _spi_disable, _spi_flush_rx]
    split_ifs with hc <;> simp [hc]

/-- C5: every protocol operation, on success and on the chip-error
path alike, leaves the SPI clock polarity and phase bits equal to
their values immediately before the operation began: the forced
polarity=0/phase=0 mode does not persist past the transaction. -/
theorem C5_polarity_phase_restored (s : DevState) (cmd code reply r0 r1 : ℕ) :
    ((MCP41HVX1_Move_Wiper s cmd reply).2.1.cr1.cpol = s.cr1.cpol
      ∧ (MCP41HVX1_Move_Wiper s cmd reply).2.1.cr1.cpha = s.cr1.cpha)
    ∧ ((MCP41HVX1_Set_Resistance_Code s code r0 r1).2.1.cr1.cpol = s.cr1.cpol
      ∧ (MCP41HVX1_Set_Resistance_Code s code r0 r1).2.1.cr1.cpha = s.cr1.cpha)
    ∧ ((MCP41HVX1_Get_Resistance s r0 r1).2.1.cr1.cpol = s.cr1.cpol
      ∧ (MCP41HVX1_Get_Resistance s r0 r1).2.1.cr1.cpha = s.cr1.cpha)
    ∧ ((MCP41HVX1_Startup s r0 r1).2.1.cr1.cpol = s.cr1.cpol
      ∧ (MCP41HVX1_Startup s r0 r1).2.1.cr1.cpha = s.cr1.cpha)
    ∧ ((MCP41HVX1_Shutdown s r0 r1).2.1.cr1.cpol = s.cr1.cpol
      ∧ (MCP41HVX1_Shutdown s r0 r1).2.1.cr1.cpha = s.cr1.cpha) := by
  rcases s with ⟨g, ⟨pha, pol, spe0⟩, rq, cs, lk⟩
  cases pol <;> cases pha <;>
    simp [MCP41HVX1_Move_Wiper, MCP41HVX1_Set_Resistance_Code, MCP41HVX1_Get_Resistance,
      MCP41HVX1_Startup, MCP41HVX1_Shutdown, _spi_change_settings, _spi_revert_settings,
      _spi_disable, _spi_flush_rx, _spi_8bit_read, _spi_16bit_read, _spi_16bit_write]

/-- C6: when MCP41HVX1_Get_Resistance sees the chip's command-error
indication in the first reply byte (bit 1 clear), it returns HAL_ERROR,
never writes through the resistance out pointer (the Option component
stays none), and its complete trace holds exactly one transmit event
(the 0x0C read command): no second, dummy-clock byte is sent. -/
theorem C6_get_resistance_error_path (s : DevState) (r0 r1 : ℕ)
    (h : (r0 % 256).testBit 1 = false) :
    (MCP41HVX1_Get_Resistance s r0 r1).1 = HAL_ERROR
    ∧ (MCP41HVX1_Get_Resistance s r0 r1).2.2.1 = none
    ∧ (MCP41HVX1_Get_Resistance s r0 r1).2.2.2
        = [Ev.lock, Ev.csAssert, Ev.spiEnable, Ev.tx 0x0C, Ev.rx (r0 % 256),
           Ev.waitTxFifoEmpty, Ev.waitNotBusy, Ev.spiDisable, Ev.csDeassert, Ev.unlock] := by
  have h2 := cmderr_clear_iff (r0 % 256) (Nat.mod_lt r0 (by decide))
  have hc : ¬(((r0 % 256) ^^^ 0xFF) &&& 0x02 = 0) := by
    intro hcond
    exact absurd (h2.mp hcond) (by simp [h])
  refine ⟨?_, ?_, ?_⟩ <;>
    simp [MCP41HVX1_Get_Resistance, _spi_8bit_read, _spi_disable, _spi_flush_rx, hc]

theorem C6_get_resistance_error_path_witness :
    (0 % 256).testBit 1 = false
    ∧ ((MCP41HVX1_Get_Resistance sampleDev 0 0).1 = HAL_ERROR
      ∧ (MCP41HVX1_Get_Resistance sampleDev 0 0).2.2.1 = none
      ∧ (MCP41HVX1_Get_Resistance sampleDev 0 0).2.2.2
          = [Ev.lock, Ev.csAssert, Ev.spiEnable, Ev.tx 0x0C, Ev.rx (0 % 256),
             Ev.waitTxFifoEmpty, Ev.waitNotBusy, Ev.spiDisable, Ev.csDeassert, Ev.unlock]) :=
  ⟨by decide, C6_get_resistance_error_path sampleDev 0 0 (by decide)⟩

/-- C7: MCP41HVX1_Set_Resistance with 9804.0 computes the wiper code
255 - roundf(9804 / 196.08f) = 255 - 50 = 205 and transmits exactly the
two-byte write frame: first byte 0x00 (write command for the wiper
register address 0x00), second byte the data value 205. -/
theorem C7_set_resistance_9804_frame (s : DevState) (r0 r1 : ℕ) :
    MCP41HVX1_To_Code (Q.ofInt 9804) = 205
    ∧ txBytes ((MCP41HVX1_Set_Resistance s (Q.ofInt 9804) r0 r1).2.2) = [0x00, 205] := by
  have hcode : MCP41HVX1_To_Code (Q.ofInt 9804) = 205 := by decide
  have hle : ¬ Q.le (Q.ofInt 9804) (Q.ofInt 0) := by decide
  refine ⟨hcode, ?_⟩
  simp [MCP41HVX1_Set_Resistance, hle, hcode, MCP41HVX1_Set_Resistance_Code,
    _spi_16bit_write, _spi_16bit_read, _spi_disable, _spi_flush_rx, txBytes]
  decide

/-- C8: the SPI disable primitive performs, in this strict order, the
transmit-FIFO drain poll, the busy-flag poll, the SPE clear, and one
read per residual receive-FIFO byte until the FIFO is empty; it leaves
polarity and phase untouched, empties the receive FIFO completely (no
residual byte survives into the next transaction) and returns HAL_OK. -/
theorem C8_spi_disable_sequence (cr1 : CR1) (fifo : List ℕ) :
    _spi_disable cr1 fifo
      = (HAL_OK, { cr1 with spe := false }, [],
         Ev.waitTxFifoEmpty :: Ev.waitNotBusy :: Ev.spiDisable :: fifo.map Ev.drain) := by
  have hflush : ∀ l : List ℕ, _spi_flush_rx l = ([], l.map Ev.drain) := by
    intro l
    induction l with
    | nil => rfl
    | cons b rest ih => simp [_spi_flush_rx, ih]
  simp [_spi_disable, hflush]

/-- C9: every protocol operation, on every exit path including the
chip-error path, completes the full release sequence before returning:
the trace ends with the disable sequence, the chip-select deassertion
and the unlock, and the final state holds no lock, an idle chip-select,
SPE cleared, and the restored polarity/phase. -/
theorem C9_release_on_every_exit_path (s : DevState) (cmd code reply r0 r1 : ℕ) :
    releasedAfter s (MCP41HVX1_Move_Wiper s cmd reply).2.1 (MCP41HVX1_Move_Wiper s cmd reply).2.2
    ∧ releasedAfter s (MCP41HVX1_Set_Resistance_Code s code r0 r1).2.1
        (MCP41HVX1_Set_Resistance_Code s code r0 r1).2.2
    ∧ releasedAfter s (MCP41HVX1_Get_Resistance s r0 r1).2.1
        (MCP41HVX1_Get_Resistance s r0 r1).2.2.2
    ∧ releasedAfter s (MCP41HVX1_Startup s r0 r1).2.1 (MCP41HVX1_Startup s r0 r1).2.2
    ∧ releasedAfter s (MCP41HVX1_Shutdown s r0 r1).2.1 (MCP41HVX1_Shutdown s r0 r1).2.2 := by
  rcases s with ⟨g, ⟨pha, pol, spe0⟩, rq, cs, lk⟩
  refine ⟨?_, ?_, ?_, ?_, ?_⟩
  · refine ⟨⟨[Ev.lock, Ev.csAssert, Ev.spiEnable, Ev.tx (cmd % 256), Ev.rx (reply % 256)], ?_⟩,
      ?_, ?_, ?_, ?_, ?_⟩ <;>
      cases pol <;> cases pha <;>
      simp [MCP41HVX1_Move_Wiper, _spi_change_settings, _spi_revert_settings,
        _spi_disable, _spi_flush_rx, _spi_8bit_read]
  · refine ⟨⟨[Ev.lock, Ev.csAssert, Ev.spiEnable,
        Ev.tx (((0x0000 ||| (code % 256)) &&& 0xFF00) >>> 8),
        Ev.tx ((0x0000 ||| (code % 256)) &&& 0x00FF),
        Ev.rx (r0 % 256), Ev.rx (r1 % 256)], ?_⟩, ?_, ?_, ?_, ?_, ?_⟩ <;>
      cases pol <;> cases pha <;>
      simp [MCP41HVX1_Set_Resistance_Code, _spi_change_settings, _spi_revert_settings,
        _spi_disable, _spi_flush_rx, _spi_16bit_read, _spi_16bit_write]
  · by_cases hc : ((r0 % 256) ^^^ 0xFF) &&& 0x02 = 0
    · refine ⟨⟨[Ev.lock, Ev.csAssert, Ev.spiEnable, Ev.tx 0x0C, Ev.rx (r0 % 256),
          Ev.tx 0x00, Ev.rx (r1 % 256)], ?_⟩, ?_, ?_, ?_, ?_, ?_⟩ <;>
        cases pol <;> cases pha <;>
        simp [MCP41HVX1_Get_Resistance, _spi_change_settings, _spi_revert_settings,
          _spi_disable, _spi_flush_rx, _spi_8bit_read, hc]
    · refine ⟨⟨[Ev.lock, Ev.csAssert, Ev.spiEnable, Ev.tx 0x0C, Ev.rx (r0 % 256)], ?_⟩,
        ?_, ?_, ?_, ?_, ?_⟩ <;>
        cases pol <;> cases pha <;>
        simp [MCP41HVX1_Get_Resistance, _spi_change_settings, _spi_revert_settings,
          _spi_disable, _spi_flush_rx, _spi_8bit_read, hc]
  · refine ⟨⟨[Ev.lock, Ev.csAssert, Ev.spiEnable, Ev.tx 0x04, Ev.tx 0xFF,
        Ev.rx (r0 % 256), Ev.rx (r1 % 256)], ?_⟩, ?_, ?_, ?_, ?_, ?_⟩ <;>
      cases pol <;> cases pha <;>
      simp [MCP41HVX1_Startup, _spi_change_settings, _spi_revert_settings,
        _spi_disable, _spi_flush_rx, _spi_16bit_read, _spi_16bit_write] <;>
      decide
  · refine ⟨⟨[Ev.lock, Ev.csAssert, Ev.spiEnable, Ev.tx 0x04, Ev.tx 0xF9,
        Ev.rx (r0 % 256), Ev.rx (r1 % 256)], ?_⟩, ?_, ?_, ?_, ?_, ?_⟩ <;>
      cases pol <;> cases pha <;>
      simp [MCP41HVX1_Shutdown, _spi_change_settings, _spi_revert_settings,
        _spi_disable, _spi_flush_rx, _spi_16bit_read, _spi_16bit_write] <;>
      decide

/-- C10: MCP41HVX1_To_Code does not clamp: for every resistance value
r > 0 whose rounded step count roundf(r / 196.08f) exceeds 255, the
rounded value is reduced modulo 256 by the uint8_t conversion and
subtracted from 255, so the returned code wraps around and still lies
in the seemingly valid range 0..255. -/
theorem C10_to_code_wraps_mod256 (q : Q)
    (h0 : Q.lt (Q.ofInt 0) q)
    (h1 : 255 < (roundf (fdiv q MCP_STEP_RESISTANCE)).floor) :
    MCP41HVX1_To_Code q
        = 255 - (roundf (fdiv q MCP_STEP_RESISTANCE)).floor.toNat % 256
    ∧ MCP41HVX1_To_Code q ≤ 255 := by
  unfold MCP41HVX1_To_Code u8_of_f MCP_FSV
  constructor <;> omega

theorem C10_to_code_wraps_mod256_witness :
    (Q.lt (Q.ofInt 0) (Q.ofInt 60000)
      ∧ 255 < (roundf (fdiv (Q.ofInt 60000) MCP_STEP_RESISTANCE)).floor)
    ∧ (MCP41HVX1_To_Code (Q.ofInt 60000)
          = 255 - (roundf (fdiv (Q.ofInt 60000) MCP_STEP_RESISTANCE)).floor.toNat % 256
      ∧ MCP41HVX1_To_Code (Q.ofInt 60000) ≤ 255) :=
  ⟨⟨by decide, by decide⟩,
   C10_to_code_wraps_mod256 (Q.ofInt 60000) (by decide) (by decide)⟩
